import Mathlib

/-!
Verification of the multi-tenant resolution and request-dispatch layer of a
Prometheus MCP server (`src/prometheus_mcp_server/server.py`), shallowly
embedded in Lean 4.

Python conventions carried over into the embedding:
* optional string fields (`Optional[str]`) become `Option String`;
* Python truthiness of such a field (`if tenant.token:`) is `optTruthy`:
  `none` and `some ""` are falsy, any other `some s` is truthy;
* raising an exception becomes returning `Except.error`; `str(e)` becomes
  `ReqError.toMessage`;
* Python `dict` insertion (unique keys, insertion order, in-place overwrite)
  becomes `dictInsert` on an association list;
* the HTTP world is an oracle `http : HttpRequest → HttpResponse α` mapping
  the request the code builds to the response the backend would give; the
  payload type `α` varies per endpoint, mirroring the dynamically typed
  `result["data"]`.
The MCP transport configuration (`MCPServerConfig`) is out of scope of the
claims and is omitted.
-/

/-- Python truthiness for an `Optional[str]` value: `None` and `""` are falsy. -/
def optTruthy : Option String → Bool
  | none => false
  | some s => s != ""

/-- Python `str(x)` for an `Optional[str]`: `None` prints as `"None"`. -/
def pyStrOpt : Option String → String
  | none => "None"
  | some s => s

/-- Python `str(list_of_str)`, e.g. `['a', 'b']`. -/
def pyReprList (xs : List String) : String :=
  "[" ++ String.intercalate ", " (xs.map (fun s => "'" ++ s ++ "'")) ++ "]"

/-- Python `s.rstrip('/')`: drop all trailing slashes. -/
def rstripSlash (s : String) : String :=
  String.mk ((s.data.reverse.dropWhile (fun c => c == '/')).reverse)

/-- `PrometheusTenant` dataclass: configuration for a single Prometheus tenant. -/
structure PrometheusTenant where
  name : String
  url : String
  username : Option String := none
  password : Option String := none
  token : Option String := none
  org_id : Option String := none
deriving Repr, DecidableEq

/-- `PrometheusTenant.__post_init__`: reject empty name or URL. -/
def tenantPostInit (t : PrometheusTenant) : Except String PrometheusTenant :=
  if t.name = "" then Except.error "Tenant name is required"
  else if t.url = "" then
    Except.error ("URL is required for tenant '" ++ t.name ++ "'")
  else Except.ok t

/-- `PrometheusConfig` dataclass after `__post_init__` ran: tenant list plus
the (possibly auto-filled) default tenant name. -/
structure PrometheusConfig where
  tenants : List PrometheusTenant
  default_tenant : Option String
deriving Repr, DecidableEq

/-- `PrometheusConfig.get_tenant`: first tenant whose name matches, else `None`. -/
def PrometheusConfig.get_tenant (c : PrometheusConfig) (name : String) :
    Option PrometheusTenant :=
  c.tenants.find? (fun t => t.name == name)

/-- `PrometheusConfig.list_tenant_names`. -/
def PrometheusConfig.list_tenant_names (c : PrometheusConfig) : List String :=
  c.tenants.map (fun t => t.name)

/-- `PrometheusConfig.__post_init__`: reject an empty tenant list, auto-fill a
falsy default tenant with the first tenant's name, and reject a truthy default
naming no tenant. -/
def configPostInit (tenants : List PrometheusTenant) (default0 : Option String) :
    Except String PrometheusConfig :=
  if tenants.isEmpty then
    Except.error "At least one tenant must be configured"
  else
    let dflt := if optTruthy default0 then default0 else tenants.head?.map (fun t => t.name)
    let cfg : PrometheusConfig := { tenants := tenants, default_tenant := dflt }
    if optTruthy dflt && (cfg.get_tenant (dflt.getD "")).isNone then
      Except.error ("Default tenant '" ++ pyStrOpt dflt ++ "' not found in tenant list")
    else
      Except.ok cfg

/-- The dynamically typed value `get_prometheus_auth` returns: a header dict
(bearer token), an `HTTPBasicAuth` object, or `None`. -/
inductive AuthValue where
  | headerDict (key value : String)
  | basicAuth (username password : String)
  | noAuth
deriving Repr, DecidableEq

/-- `get_prometheus_auth`: token wins over basic auth; basic auth needs both
username and password truthy; otherwise no credentials. -/
def get_prometheus_auth (t : PrometheusTenant) : AuthValue :=
  if optTruthy t.token then
    AuthValue.headerDict "Authorization" ("Bearer " ++ t.token.getD "")
  else if optTruthy t.username && optTruthy t.password then
    AuthValue.basicAuth (t.username.getD "") (t.password.getD "")
  else
    AuthValue.noAuth

/-- The outbound HTTP GET request `make_prometheus_request` hands to
`requests.get`: URL, query params, transport-level basic auth, headers. -/
structure HttpRequest where
  url : String
  params : List (String × String)
  auth : Option (String × String)
  headers : List (String × String)
deriving Repr, DecidableEq

/-- The backend's JSON envelope `{status, data, error?}`; a `none` field models
a key absent from the JSON object (reading it raises `KeyError`). -/
structure Envelope (α : Type) where
  status : Option String
  error : Option String := none
  data : Option α := none
deriving Repr, DecidableEq

/-- What the HTTP world does with one request: a `requests` exception
(network failure or non-2xx via `raise_for_status`), a non-JSON body
(`json.JSONDecodeError`), or a parsed JSON envelope. -/
inductive HttpResponse (α : Type) where
  | requestException (msg : String)
  | invalidJson (msg : String)
  | body (env : Envelope α)
deriving Repr, DecidableEq

/-- The classified errors `make_prometheus_request` (and the handlers built on
it) can raise, before stringification. -/
inductive ReqError where
  | tenantNotFound (requested : Option String) (available : List String)
  | transport (msg : String)
  | badJson (tenant : String) (msg : String)
  | backend (tenant : String) (msg : String)
  | keyError (key : String)
deriving Repr, DecidableEq

/-- Python `str(e)` of each raised exception. -/
def ReqError.toMessage : ReqError → String
  | ReqError.tenantNotFound req avail =>
      "Tenant '" ++ pyStrOpt req ++ "' not found. Available tenants: " ++ pyReprList avail
  | ReqError.transport msg => msg
  | ReqError.badJson tn msg =>
      "Invalid JSON response from Prometheus tenant '" ++ tn ++ "': " ++ msg
  | ReqError.backend tn msg =>
      "Prometheus API error for tenant '" ++ tn ++ "': " ++ msg
  | ReqError.keyError k => "'" ++ k ++ "'"

/-- Lines 176-178: substitute the default tenant only when `tenant_name is None`. -/
def effectiveName (cfg : PrometheusConfig) (tenant_name : Option String) : Option String :=
  match tenant_name with
  | none => cfg.default_tenant
  | some s => some s

/-- Lines 185-195: the URL, auth and headers `make_prometheus_request` builds
for a resolved tenant: a header-dict auth value is moved into the headers, and
a truthy `org_id` adds the `X-Scope-OrgID` header. -/
def buildRequest (tenant : PrometheusTenant) (endpoint : String)
    (params : List (String × String)) : HttpRequest :=
  let url := rstripSlash tenant.url ++ "/api/v1/" ++ endpoint
  let basicHdrs : Option (String × String) × List (String × String) :=
    match get_prometheus_auth tenant with
    | AuthValue.headerDict k v => (none, [(k, v)])
    | AuthValue.basicAuth u p => (some (u, p), [])
    | AuthValue.noAuth => (none, [])
  let headers :=
    if optTruthy tenant.org_id then
      basicHdrs.2 ++ [("X-Scope-OrgID", tenant.org_id.getD "")]
    else basicHdrs.2
  { url := url, params := params, auth := basicHdrs.1, headers := headers }

/-- `make_prometheus_request`: resolve the tenant (default substitution, then
lookup), build and issue the request, classify transport/JSON failures, check
the envelope status, and return the `data` field on success. -/
def make_prometheus_request {α : Type} (cfg : PrometheusConfig) (endpoint : String)
    (params : List (String × String)) (http : HttpRequest → HttpResponse α)
    (tenant_name : Option String) : Except ReqError α :=
  let tn := effectiveName cfg tenant_name
  match tn with
  | none => Except.error (ReqError.tenantNotFound none cfg.list_tenant_names)
  | some n =>
    match cfg.get_tenant n with
    | none => Except.error (ReqError.tenantNotFound (some n) cfg.list_tenant_names)
    | some tenant =>
      match http (buildRequest tenant endpoint params) with
      | HttpResponse.requestException msg => Except.error (ReqError.transport msg)
      | HttpResponse.invalidJson msg => Except.error (ReqError.badJson n msg)
      | HttpResponse.body env =>
        match env.status with
        | none => Except.error (ReqError.keyError "status")
        | some st =>
          if st != "success" then
            Except.error (ReqError.backend n (env.error.getD "Unknown error"))
          else
            match env.data with
            | none => Except.error (ReqError.keyError "data")
            | some d => Except.ok d

/-- Payload of the `query` / `query_range` endpoints as the handlers consume
it: `data["resultType"]` and `data["result"]` (the result value itself is kept
opaque as a string). -/
structure QueryData where
  resultType : Option String := none
  result : Option String := none
deriving Repr, DecidableEq

/-- Payload of the `metadata` endpoint: `data["metadata"]` (items opaque). -/
structure MetadataData where
  metadata : Option (List String) := none
deriving Repr, DecidableEq

/-- Payload of the `targets` endpoint (target objects opaque). -/
structure TargetsData where
  activeTargets : Option (List String) := none
  droppedTargets : Option (List String) := none
deriving Repr, DecidableEq

/-- Result dict of `execute_query` / `execute_range_query`. -/
structure QueryResult where
  resultType : String
  result : String
  tenant : Option String
deriving Repr, DecidableEq

/-- Result dict of `list_metrics`. -/
structure MetricsResult where
  metrics : List String
  tenant : Option String
  count : Nat
deriving Repr, DecidableEq

/-- Result dict of `get_metric_metadata`. -/
structure MetadataResult where
  metadata : List String
  metric : String
  tenant : Option String
  count : Nat
deriving Repr, DecidableEq

/-- Result dict of `get_targets`. -/
structure TargetsResult where
  activeTargets : List String
  droppedTargets : List String
  tenant : Option String
  active_count : Nat
  dropped_count : Nat
deriving Repr, DecidableEq

/-- The params dict built by `execute_query` and the fan-out:
`{"query": query}` plus `"time"` when truthy. -/
def execQueryParams (query : String) (time : Option String) : List (String × String) :=
  [("query", query)] ++ (if optTruthy time then [("time", time.getD "")] else [])

/-- `execute_query` tool handler. -/
def execute_query (cfg : PrometheusConfig) (http : HttpRequest → HttpResponse QueryData)
    (query : String) (time : Option String) (tenant : Option String) :
    Except ReqError QueryResult :=
  let params := execQueryParams query time
  let tenant_name := if optTruthy tenant then tenant else cfg.default_tenant
  match make_prometheus_request cfg "query" params http tenant_name with
  | Except.error e => Except.error e
  | Except.ok data =>
    match data.resultType with
    | none => Except.error (ReqError.keyError "resultType")
    | some rt =>
      match data.result with
      | none => Except.error (ReqError.keyError "result")
      | some r => Except.ok { resultType := rt, result := r, tenant := tenant_name }

/-- `execute_range_query` tool handler. -/
def execute_range_query (cfg : PrometheusConfig) (http : HttpRequest → HttpResponse QueryData)
    (query start stop step : String) (tenant : Option String) :
    Except ReqError QueryResult :=
  let params := [("query", query), ("start", start), ("end", stop), ("step", step)]
  let tenant_name := if optTruthy tenant then tenant else cfg.default_tenant
  match make_prometheus_request cfg "query_range" params http tenant_name with
  | Except.error e => Except.error e
  | Except.ok data =>
    match data.resultType with
    | none => Except.error (ReqError.keyError "resultType")
    | some rt =>
      match data.result with
      | none => Except.error (ReqError.keyError "result")
      | some r => Except.ok { resultType := rt, result := r, tenant := tenant_name }

/-- `list_metrics` tool handler. -/
def list_metrics (cfg : PrometheusConfig) (http : HttpRequest → HttpResponse (List String))
    (tenant : Option String) : Except ReqError MetricsResult :=
  let tenant_name := if optTruthy tenant then tenant else cfg.default_tenant
  match make_prometheus_request cfg "label/__name__/values" [] http tenant_name with
  | Except.error e => Except.error e
  | Except.ok data =>
    Except.ok { metrics := data, tenant := tenant_name, count := data.length }

/-- `get_metric_metadata` tool handler. -/
def get_metric_metadata (cfg : PrometheusConfig) (http : HttpRequest → HttpResponse MetadataData)
    (metric : String) (tenant : Option String) : Except ReqError MetadataResult :=
  let tenant_name := if optTruthy tenant then tenant else cfg.default_tenant
  match make_prometheus_request cfg "metadata" [("metric", metric)] http tenant_name with
  | Except.error e => Except.error e
  | Except.ok data =>
    match data.metadata with
    | none => Except.error (ReqError.keyError "metadata")
    | some m =>
      Except.ok { metadata := m, metric := metric, tenant := tenant_name, count := m.length }

/-- `get_targets` tool handler. -/
def get_targets (cfg : PrometheusConfig) (http : HttpRequest → HttpResponse TargetsData)
    (tenant : Option String) : Except ReqError TargetsResult :=
  let tenant_name := if optTruthy tenant then tenant else cfg.default_tenant
  match make_prometheus_request cfg "targets" [] http tenant_name with
  | Except.error e => Except.error e
  | Except.ok data =>
    match data.activeTargets with
    | none => Except.error (ReqError.keyError "activeTargets")
    | some act =>
      match data.droppedTargets with
      | none => Except.error (ReqError.keyError "droppedTargets")
      | some dr =>
        Except.ok { activeTargets := act, droppedTargets := dr, tenant := tenant_name,
                    active_count := act.length, dropped_count := dr.length }

/-- Per-tenant success entry of the fan-out:
`{"resultType": ..., "result": ..., "success": True}`. -/
structure FanSuccess where
  resultType : String
  result : String
  success : Bool
deriving Repr, DecidableEq

/-- Per-tenant failure entry of the fan-out: `{"error": str(e), "success": False}`. -/
structure FanFailure where
  error : String
  success : Bool
deriving Repr, DecidableEq

/-- Python dict insertion on an association list: overwrite in place when the
key exists, else append. -/
def dictInsert {β : Type} (l : List (String × β)) (k : String) (v : β) :
    List (String × β) :=
  if l.any (fun p => p.1 == k) then
    l.map (fun p => if p.1 == k then (k, v) else p)
  else l ++ [(k, v)]

/-- Python dict lookup on an association list. -/
def dictGet {β : Type} : List (String × β) → String → Option β
  | [], _ => none
  | (k', v) :: rest, k => if k' == k then some v else dictGet rest k

/-- The body of the fan-out's `try` block for one tenant: call the executor
with that tenant's name, then read `data["resultType"]` and `data["result"]`
(each can raise `KeyError`, which the `except` also catches). -/
def fanoutOutcome (cfg : PrometheusConfig) (http : HttpRequest → HttpResponse QueryData)
    (params : List (String × String)) (t : PrometheusTenant) :
    Except ReqError FanSuccess :=
  match make_prometheus_request cfg "query" params http (some t.name) with
  | Except.error e => Except.error e
  | Except.ok data =>
    match data.resultType with
    | none => Except.error (ReqError.keyError "resultType")
    | some rt =>
      match data.result with
      | none => Except.error (ReqError.keyError "result")
      | some r => Except.ok { resultType := rt, result := r, success := true }

/-- The fan-out loop over the tenant list: each tenant's outcome goes into the
`results` dict on success or the `errors` dict (stringified) on failure. -/
def fanoutFold (outcome : PrometheusTenant → Except ReqError FanSuccess) :
    List PrometheusTenant →
    List (String × FanSuccess) × List (String × FanFailure) →
    List (String × FanSuccess) × List (String × FanFailure)
  | [], acc => acc
  | t :: rest, acc =>
    match outcome t with
    | Except.ok v => fanoutFold outcome rest (dictInsert acc.1 t.name v, acc.2)
    | Except.error e =>
      fanoutFold outcome rest
        (acc.1, dictInsert acc.2 t.name { error := e.toMessage, success := false })

/-- Result dict of `execute_query_all_tenants`. -/
structure FanoutResult where
  query : String
  time : Option String
  results : List (String × FanSuccess)
  errors : List (String × FanFailure)
  successful_tenants : Nat
  failed_tenants : Nat
  total_tenants : Nat
deriving Repr, DecidableEq

/-- `execute_query_all_tenants` tool handler: iterate every configured tenant,
record each outcome independently, and report the aggregate counts. -/
def execute_query_all_tenants (cfg : PrometheusConfig)
    (http : HttpRequest → HttpResponse QueryData) (query : String) (time : Option String) :
    FanoutResult :=
  let params := execQueryParams query time
  let re := fanoutFold (fanoutOutcome cfg http params) cfg.tenants ([], [])
  { query := query, time := time, results := re.1, errors := re.2,
    successful_tenants := re.1.length, failed_tenants := re.2.length,
    total_tenants := cfg.tenants.length }

/-- One entry of the `list_tenants` summary:
`{"name", "url", "has_auth": bool(username or token), "org_id"}`. -/
structure TenantInfo where
  name : String
  url : String
  has_auth : Bool
  org_id : Option String
deriving Repr, DecidableEq

/-- The summary `list_tenants` builds for one tenant. -/
def tenantInfo (t : PrometheusTenant) : TenantInfo :=
  { name := t.name, url := t.url,
    has_auth := optTruthy t.username || optTruthy t.token,
    org_id := t.org_id }

/-- Result dict of `list_tenants`. -/
structure ListTenantsResult where
  tenants : List TenantInfo
  default_tenant : Option String
  total_count : Nat
deriving Repr, DecidableEq

/-- `list_tenants` tool handler: summaries in registry order, the default
tenant name, and the count. No backend call. -/
def list_tenants (cfg : PrometheusConfig) : ListTenantsResult :=
  { tenants := cfg.tenants.map tenantInfo,
    default_tenant := cfg.default_tenant,
    total_count := cfg.tenants.length }

/-- Lines 176-180 of `make_prometheus_request` viewed as the registry's
resolution step: default substitution followed by lookup. -/
def resolveTenant (cfg : PrometheusConfig) (tenant_name : Option String) :
    Option PrometheusTenant :=
  match effectiveName cfg tenant_name with
  | none => none
  | some n => cfg.get_tenant n

/-- The per-tenant entry the fan-out loop would add to `results`. -/
def okEntry (outcome : PrometheusTenant → Except ReqError FanSuccess)
    (t : PrometheusTenant) : Option (String × FanSuccess) :=
  match outcome t with
  | Except.ok v => some (t.name, v)
  | Except.error _ => none

/-- The per-tenant entry the fan-out loop would add to `errors`. -/
def errEntry (outcome : PrometheusTenant → Except ReqError FanSuccess)
    (t : PrometheusTenant) : Option (String × FanFailure) :=
  match outcome t with
  | Except.ok _ => none
  | Except.error e => some (t.name, { error := e.toMessage, success := false })

theorem dictInsert_fresh {β : Type} (l : List (String × β)) (k : String) (v : β)
    (h : k ∉ l.map Prod.fst) : dictInsert l k v = l ++ [(k, v)] := by
  have hAny : l.any (fun p => p.1 == k) = false := by
    rw [List.any_eq_false]
    intro p hp
    simp only [beq_iff_eq]
    intro hpk
    exact h (List.mem_map.mpr ⟨p, hp, hpk⟩)
  simp [dictInsert, hAny]

theorem dictGet_of_not_mem {β : Type} (l : List (String × β)) (k : String)
    (h : k ∉ l.map Prod.fst) : dictGet l k = none := by
  induction l with
  | nil => rfl
  | cons p rest ih =>
    simp only [List.map_cons, List.mem_cons, not_or] at h
    have : (p.1 == k) = false := by
      simp only [beq_eq_false_iff_ne, ne_eq]
      intro hc
      exact h.1 hc.symm
    simp [dictGet, this, ih h.2]

theorem okEntry_keys_sub (outcome : PrometheusTenant → Except ReqError FanSuccess)
    (ts : List PrometheusTenant) :
    ∀ k ∈ (ts.filterMap (okEntry outcome)).map Prod.fst, k ∈ ts.map (fun t => t.name) := by
  intro k hk
  obtain ⟨p, hp, rfl⟩ := List.mem_map.mp hk
  obtain ⟨t, ht, hte⟩ := List.mem_filterMap.mp hp
  refine List.mem_map.mpr ⟨t, ht, ?_⟩
  unfold okEntry at hte
  cases h : outcome t <;> rw [h] at hte
  · cases hte
  · cases hte; rfl

theorem errEntry_keys_sub (outcome : PrometheusTenant → Except ReqError FanSuccess)
    (ts : List PrometheusTenant) :
    ∀ k ∈ (ts.filterMap (errEntry outcome)).map Prod.fst, k ∈ ts.map (fun t => t.name) := by
  intro k hk
  obtain ⟨p, hp, rfl⟩ := List.mem_map.mp hk
  obtain ⟨t, ht, hte⟩ := List.mem_filterMap.mp hp
  refine List.mem_map.mpr ⟨t, ht, ?_⟩
  unfold errEntry at hte
  cases h : outcome t <;> rw [h] at hte
  · cases hte; rfl
  · cases hte

theorem fanoutFold_eq (outcome : PrometheusTenant → Except ReqError FanSuccess) :
    ∀ (ts : List PrometheusTenant)
      (acc : List (String × FanSuccess) × List (String × FanFailure)),
    (ts.map (fun t => t.name)).Nodup →
    (∀ t ∈ ts, t.name ∉ acc.1.map Prod.fst) →
    (∀ t ∈ ts, t.name ∉ acc.2.map Prod.fst) →
    fanoutFold outcome ts acc =
      (acc.1 ++ ts.filterMap (okEntry outcome), acc.2 ++ ts.filterMap (errEntry outcome))
  | [], acc, _, _, _ => by simp [fanoutFold]
  | t :: rest, acc, hnd, h1, h2 => by
    rw [List.map_cons, List.nodup_cons] at hnd
    have hndRest := hnd.2
    have hHead := hnd.1
    cases ho : outcome t with
    | ok v =>
      have hfresh := dictInsert_fresh acc.1 t.name v (h1 t (List.mem_cons_self t rest))
      have h1' : ∀ t' ∈ rest, t'.name ∉ (acc.1 ++ [(t.name, v)]).map Prod.fst := by
        intro t' ht'
        simp only [List.map_append, List.mem_append, List.map_cons, List.map_nil,
          List.mem_singleton, not_or]
        refine ⟨h1 t' (List.mem_cons_of_mem t ht'), ?_⟩
        intro hc
        exact hHead (hc ▸ List.mem_map.mpr ⟨t', ht', rfl⟩)
      have h2' : ∀ t' ∈ rest, t'.name ∉ acc.2.map Prod.fst := fun t' ht' =>
        h2 t' (List.mem_cons_of_mem t ht')
      have ih := fanoutFold_eq outcome rest (acc.1 ++ [(t.name, v)], acc.2) hndRest h1' h2'
      simp only [fanoutFold, ho, hfresh, ih, okEntry, errEntry, List.filterMap_cons]
      simp [List.append_assoc]
    | error e =>
      have hfresh := dictInsert_fresh acc.2 t.name
        ({ error := e.toMessage, success := false } : FanFailure)
        (h2 t (List.mem_cons_self t rest))
      have h2' : ∀ t' ∈ rest,
          t'.name ∉ (acc.2 ++ [(t.name,
            ({ error := e.toMessage, success := false } : FanFailure))]).map Prod.fst := by
        intro t' ht'
        simp only [List.map_append, List.mem_append, List.map_cons, List.map_nil,
          List.mem_singleton, not_or]
        refine ⟨h2 t' (List.mem_cons_of_mem t ht'), ?_⟩
        intro hc
        exact hHead (hc ▸ List.mem_map.mpr ⟨t', ht', rfl⟩)
      have h1' : ∀ t' ∈ rest, t'.name ∉ acc.1.map Prod.fst := fun t' ht' =>
        h1 t' (List.mem_cons_of_mem t ht')
      have ih := fanoutFold_eq outcome rest
        (acc.1, acc.2 ++ [(t.name, ({ error := e.toMessage, success := false } : FanFailure))])
        hndRest h1' h2'
      simp only [fanoutFold, ho, hfresh, ih, okEntry, errEntry, List.filterMap_cons]
      simp [List.append_assoc]

theorem okErr_length (outcome : PrometheusTenant → Except ReqError FanSuccess)
    (ts : List PrometheusTenant) :
    (ts.filterMap (okEntry outcome)).length + (ts.filterMap (errEntry outcome)).length
      = ts.length := by
  induction ts with
  | nil => rfl
  | cons t rest ih =>
    cases ho : outcome t <;>
      simp only [List.filterMap_cons, okEntry, errEntry, ho, List.length_cons] <;>
      omega

theorem name_inj {ts : List PrometheusTenant}
    (hnd : (ts.map (fun t => t.name)).Nodup) :
    ∀ t ∈ ts, ∀ t' ∈ ts, t.name = t'.name → t = t' := by
  intro t ht t' ht' h
  exact List.inj_on_of_nodup_map hnd ht ht' h

theorem mem_okKeys {outcome : PrometheusTenant → Except ReqError FanSuccess}
    {ts : List PrometheusTenant} (hnd : (ts.map (fun t => t.name)).Nodup)
    {t : PrometheusTenant} (ht : t ∈ ts) :
    t.name ∈ (ts.filterMap (okEntry outcome)).map Prod.fst ↔
      ∃ v, outcome t = Except.ok v := by
  constructor
  · intro hk
    obtain ⟨p, hp, hfst⟩ := List.mem_map.mp hk
    obtain ⟨t', ht', hte⟩ := List.mem_filterMap.mp hp
    have hname : t'.name = t.name := by
      unfold okEntry at hte
      cases h : outcome t' <;> rw [h] at hte
      · cases hte
      · cases hte; exact hfst
    have : t' = t := name_inj hnd t' ht' t ht hname
    subst this
    unfold okEntry at hte
    cases h : outcome t' <;> rw [h] at hte
    · cases hte
    · exact ⟨_, rfl⟩
  · rintro ⟨v, hv⟩
    refine List.mem_map.mpr ⟨(t.name, v), List.mem_filterMap.mpr ⟨t, ht, ?_⟩, rfl⟩
    simp [okEntry, hv]

theorem mem_errKeys {outcome : PrometheusTenant → Except ReqError FanSuccess}
    {ts : List PrometheusTenant} (hnd : (ts.map (fun t => t.name)).Nodup)
    {t : PrometheusTenant} (ht : t ∈ ts) :
    t.name ∈ (ts.filterMap (errEntry outcome)).map Prod.fst ↔
      ∃ e, outcome t = Except.error e := by
  constructor
  · intro hk
    obtain ⟨p, hp, hfst⟩ := List.mem_map.mp hk
    obtain ⟨t', ht', hte⟩ := List.mem_filterMap.mp hp
    have hname : t'.name = t.name := by
      unfold errEntry at hte
      cases h : outcome t' <;> rw [h] at hte
      · cases hte; exact hfst
      · cases hte
    have : t' = t := name_inj hnd t' ht' t ht hname
    subst this
    unfold errEntry at hte
    cases h : outcome t' <;> rw [h] at hte
    · exact ⟨_, rfl⟩
    · cases hte
  · rintro ⟨e, he⟩
    refine List.mem_map.mpr
      ⟨(t.name, { error := e.toMessage, success := false }),
        List.mem_filterMap.mpr ⟨t, ht, ?_⟩, rfl⟩
    simp [errEntry, he]

theorem dictGet_okEntries {outcome : PrometheusTenant → Except ReqError FanSuccess} :
    ∀ {ts : List PrometheusTenant}, (ts.map (fun t => t.name)).Nodup →
    ∀ {t : PrometheusTenant}, t ∈ ts → ∀ {v : FanSuccess}, outcome t = Except.ok v →
    dictGet (ts.filterMap (okEntry outcome)) t.name = some v := by
  intro ts
  induction ts with
  | nil => intro _ t ht; cases ht
  | cons hd tl ih =>
    intro hnd t ht v hv
    rw [List.map_cons, List.nodup_cons] at hnd
    rcases List.mem_cons.mp ht with rfl | htl
    · rw [List.filterMap_cons]
      have : okEntry outcome t = some (t.name, v) := by simp [okEntry, hv]
      rw [this]
      simp [dictGet]
    · have hne : (hd.name == t.name) = false := by
        simp only [beq_eq_false_iff_ne, ne_eq]
        intro hc
        exact hnd.1 (hc ▸ List.mem_map.mpr ⟨t, htl, rfl⟩)
      rw [List.filterMap_cons]
      cases hho : okEntry outcome hd with
      | none => exact ih hnd.2 htl hv
      | some p =>
        have hpfst : p.1 = hd.name := by
          unfold okEntry at hho
          cases h : outcome hd <;> rw [h] at hho
          · cases hho
          · cases hho; rfl
        simp only [dictGet, hpfst, hne]
        exact ih hnd.2 htl hv

theorem dictGet_errEntries {outcome : PrometheusTenant → Except ReqError FanSuccess} :
    ∀ {ts : List PrometheusTenant}, (ts.map (fun t => t.name)).Nodup →
    ∀ {t : PrometheusTenant}, t ∈ ts → ∀ {e : ReqError}, outcome t = Except.error e →
    dictGet (ts.filterMap (errEntry outcome)) t.name =
      some { error := e.toMessage, success := false } := by
  intro ts
  induction ts with
  | nil => intro _ t ht; cases ht
  | cons hd tl ih =>
    intro hnd t ht e he
    rw [List.map_cons, List.nodup_cons] at hnd
    rcases List.mem_cons.mp ht with rfl | htl
    · rw [List.filterMap_cons]
      have : errEntry outcome t =
          some (t.name, { error := e.toMessage, success := false }) := by
        simp [errEntry, he]
      rw [this]
      simp [dictGet]
    · have hne : (hd.name == t.name) = false := by
        simp only [beq_eq_false_iff_ne, ne_eq]
        intro hc
        exact hnd.1 (hc ▸ List.mem_map.mpr ⟨t, htl, rfl⟩)
      rw [List.filterMap_cons]
      cases hho : errEntry outcome hd with
      | none => exact ih hnd.2 htl he
      | some p =>
        have hpfst : p.1 = hd.name := by
          unfold errEntry at hho
          cases h : outcome hd <;> rw [h] at hho
          · cases hho; rfl
          · cases hho
        simp only [dictGet, hpfst, hne]
        exact ih hnd.2 htl he

theorem find?_name_self {l : List PrometheusTenant}
    (hnd : (l.map (fun t => t.name)).Nodup) {t : PrometheusTenant} (ht : t ∈ l) :
    l.find? (fun x => x.name == t.name) = some t := by
  induction l with
  | nil => cases ht
  | cons hd tl ih =>
    rw [List.map_cons, List.nodup_cons] at hnd
    rcases List.mem_cons.mp ht with rfl | htl
    · rw [List.find?_cons_of_pos]
      exact beq_self_eq_true t.name
    · have hne : (hd.name == t.name) = false := by
        simp only [beq_eq_false_iff_ne, ne_eq]
        intro hc
        exact hnd.1 (hc ▸ List.mem_map.mpr ⟨t, htl, rfl⟩)
      have hstep : List.find? (fun x => x.name == t.name) (hd :: tl) =
          List.find? (fun x => x.name == t.name) tl := by
        simp [List.find?_cons, hne]
      rw [hstep]
      exact ih hnd.2 htl

theorem configPostInit_ok {tenants : List PrometheusTenant} {default0 : Option String}
    {cfg : PrometheusConfig} (h : configPostInit tenants default0 = Except.ok cfg) :
    cfg.tenants = tenants ∧
    cfg.default_tenant =
      (if optTruthy default0 then default0 else tenants.head?.map (fun t => t.name)) ∧
    tenants ≠ [] ∧
    (optTruthy cfg.default_tenant &&
      (cfg.get_tenant (cfg.default_tenant.getD "")).isNone) = false := by
  simp only [configPostInit] at h
  split at h
  · cases h
  · rename_i hne
    split at h
    · rename_i hdf0
      split at h
      · cases h
      · rename_i hguard
        cases h
        exact ⟨rfl, by rw [if_pos hdf0], fun hc => hne (by simp [hc]),
          Bool.eq_false_iff.mpr hguard⟩
    · rename_i hdf0
      split at h
      · cases h
      · rename_i hguard
        cases h
        exact ⟨rfl, by rw [if_neg hdf0], fun hc => hne (by simp [hc]),
          Bool.eq_false_iff.mpr hguard⟩

theorem default_tenant_resolves {tenants : List PrometheusTenant}
    {default0 : Option String} {cfg : PrometheusConfig}
    (h : configPostInit tenants default0 = Except.ok cfg) :
    ∃ t0, resolveTenant cfg none = some t0 ∧ cfg.default_tenant = some t0.name := by
  obtain ⟨hts, hdf, hne, hguard⟩ := configPostInit_ok h
  cases htr : optTruthy cfg.default_tenant with
  | true =>
    rw [htr, Bool.true_and] at hguard
    cases ht0 : cfg.get_tenant (cfg.default_tenant.getD "") with
    | none => rw [ht0] at hguard; cases hguard
    | some t0 =>
      have hd : ∃ d, cfg.default_tenant = some d := by
        cases hdt : cfg.default_tenant with
        | none => rw [hdt] at htr; cases htr
        | some d => exact ⟨d, rfl⟩
      obtain ⟨d, hd⟩ := hd
      rw [hd, Option.getD_some] at ht0
      refine ⟨t0, ?_, ?_⟩
      · simp only [resolveTenant, effectiveName, hd]
        exact ht0
      · have hbeq : (t0.name == d) = true := by
          have hfind : cfg.tenants.find? (fun t => t.name == d) = some t0 := ht0
          simpa using List.find?_some hfind
        rw [hd, beq_iff_eq.mp hbeq]
  | false =>
    have hdf0 : optTruthy default0 = false := by
      cases hq : optTruthy default0 with
      | false => rfl
      | true =>
        rw [if_pos hq] at hdf
        rw [hdf] at htr
        rw [htr] at hq
        cases hq
    rw [if_neg (by simp [hdf0])] at hdf
    cases hts0 : tenants with
    | nil => exact absurd hts0 hne
    | cons t0 rest =>
      rw [hts0] at hdf
      simp only [List.head?_cons, Option.map_some'] at hdf
      refine ⟨t0, ?_, hdf⟩
      simp only [resolveTenant, effectiveName, hdf, PrometheusConfig.get_tenant, hts, hts0]
      rw [List.find?_cons_of_pos]
      exact beq_self_eq_true t0.name

theorem get_tenant_self {cfg : PrometheusConfig}
    (hnd : (cfg.tenants.map (fun t => t.name)).Nodup) {t : PrometheusTenant}
    (ht : t ∈ cfg.tenants) : cfg.get_tenant t.name = some t :=
  find?_name_self hnd ht

/-- C3: the auth resolver's precedence. If the tenant's `token` is set (truthy)
the result is the bearer-authorization header dict — in particular never basic
auth, even when username and password are also set; otherwise, if both
`username` and `password` are set the result is HTTP Basic credentials;
otherwise no credentials. -/
theorem auth_precedence (t : PrometheusTenant) :
    (optTruthy t.token = true →
      get_prometheus_auth t =
        AuthValue.headerDict "Authorization" ("Bearer " ++ t.token.getD "")) ∧
    (optTruthy t.token = true →
      ∀ u p, get_prometheus_auth t ≠ AuthValue.basicAuth u p) ∧
    (optTruthy t.token = false → optTruthy t.username = true →
      optTruthy t.password = true →
      get_prometheus_auth t = AuthValue.basicAuth (t.username.getD "") (t.password.getD "")) ∧
    (optTruthy t.token = false → (optTruthy t.username && optTruthy t.password) = false →
      get_prometheus_auth t = AuthValue.noAuth) := by
  refine ⟨fun htok => ?_, fun htok u p => ?_, fun htok hu hp => ?_, fun htok hb => ?_⟩
  · simp [get_prometheus_auth, htok]
  · simp [get_prometheus_auth, htok]
  · simp [get_prometheus_auth, htok, hu, hp]
  · simp [get_prometheus_auth, htok, hb]

/-- C3 witness: a tenant with both a token and basic-auth fields resolves to
the bearer header, never to basic credentials. -/
theorem auth_precedence_witness :
    optTruthy (some "T") = true ∧
    get_prometheus_auth
        { name := "a", url := "u", username := some "usr", password := some "pw",
          token := some "T" } =
      AuthValue.headerDict "Authorization" "Bearer T" ∧
    ∀ u p,
      get_prometheus_auth
          { name := "a", url := "u", username := some "usr", password := some "pw",
            token := some "T" } ≠ AuthValue.basicAuth u p :=
  ⟨by decide,
    (auth_precedence
      { name := "a", url := "u", username := some "usr", password := some "pw",
        token := some "T" }).1 (by decide),
    (auth_precedence
      { name := "a", url := "u", username := some "usr", password := some "pw",
        token := some "T" }).2.1 (by decide)⟩

/-- C5: a request naming an unregistered tenant yields the recoverable
tenant-not-found error value, carrying the requested name and the full list of
registered tenant names; the executor returns it as a value of its error
channel rather than ending the run. -/
theorem unknown_tenant_not_found {α : Type} (cfg : PrometheusConfig) (endpoint : String)
    (params : List (String × String)) (http : HttpRequest → HttpResponse α) (n : String)
    (h : cfg.get_tenant n = none) :
    make_prometheus_request cfg endpoint params http (some n) =
      Except.error (ReqError.tenantNotFound (some n) cfg.list_tenant_names) := by
  simp only [make_prometheus_request, effectiveName, h]

/-- C5 witness at a concrete unregistered name. -/
theorem unknown_tenant_not_found_witness :
    ({ tenants := [{ name := "a", url := "u" }], default_tenant := some "a" } :
        PrometheusConfig).get_tenant "nope" = none ∧
    make_prometheus_request
        ({ tenants := [{ name := "a", url := "u" }], default_tenant := some "a" } :
          PrometheusConfig)
        "query" [] (fun _ => HttpResponse.requestException "down" : _ → HttpResponse QueryData)
        (some "nope") =
      Except.error (ReqError.tenantNotFound (some "nope")
        ({ tenants := [{ name := "a", url := "u" }], default_tenant := some "a" } :
          PrometheusConfig).list_tenant_names) :=
  ⟨by decide,
    unknown_tenant_not_found
      { tenants := [{ name := "a", url := "u" }], default_tenant := some "a" }
      "query" [] (fun _ => HttpResponse.requestException "down") "nope" (by decide)⟩

/-- C6: for a registry built by `configPostInit` from a non-empty tenant list
whose names are unique (the registry invariant) with a valid or absent
configured default: resolving with no tenant name returns the default tenant's
record, resolving any registered name returns exactly that record, and an
absent configured default is auto-filled with the first record's name. -/
theorem registry_resolution (tenants : List PrometheusTenant) (default0 : Option String)
    (cfg : PrometheusConfig) (h : configPostInit tenants default0 = Except.ok cfg)
    (hnd : (tenants.map (fun t => t.name)).Nodup) :
    (∃ t0, resolveTenant cfg none = some t0 ∧ cfg.default_tenant = some t0.name) ∧
    (∀ t ∈ tenants, resolveTenant cfg (some t.name) = some t) ∧
    (default0 = none → cfg.default_tenant = tenants.head?.map (fun t => t.name)) := by
  obtain ⟨hts, hdf, -, -⟩ := configPostInit_ok h
  refine ⟨default_tenant_resolves h, fun t ht => ?_, fun h0 => ?_⟩
  · have : cfg.get_tenant t.name = some t :=
      get_tenant_self (by rw [hts]; exact hnd) (by rw [hts]; exact ht)
    simpa [resolveTenant, effectiveName] using this
  · rw [hdf, h0]
    rfl

/-- C6 witness: a two-tenant registry with no configured default. -/
theorem registry_resolution_witness :
    configPostInit [{ name := "a", url := "u1" }, { name := "b", url := "u2" }] none =
      Except.ok { tenants := [{ name := "a", url := "u1" }, { name := "b", url := "u2" }],
                  default_tenant := some "a" } ∧
    (([{ name := "a", url := "u1" }, { name := "b", url := "u2" }] :
        List PrometheusTenant).map (fun t => t.name)).Nodup ∧
    ((∃ t0, resolveTenant
        { tenants := [{ name := "a", url := "u1" }, { name := "b", url := "u2" }],
          default_tenant := some "a" } none = some t0 ∧
        ({ tenants := [{ name := "a", url := "u1" }, { name := "b", url := "u2" }],
           default_tenant := some "a" } : PrometheusConfig).default_tenant = some t0.name) ∧
      (∀ t ∈ ([{ name := "a", url := "u1" }, { name := "b", url := "u2" }] :
          List PrometheusTenant),
        resolveTenant
          { tenants := [{ name := "a", url := "u1" }, { name := "b", url := "u2" }],
            default_tenant := some "a" } (some t.name) = some t) ∧
      ((none : Option String) = none →
        ({ tenants := [{ name := "a", url := "u1" }, { name := "b", url := "u2" }],
           default_tenant := some "a" } : PrometheusConfig).default_tenant =
          ([{ name := "a", url := "u1" }, { name := "b", url := "u2" }] :
            List PrometheusTenant).head?.map (fun t => t.name))) :=
  ⟨rfl, by decide,
    registry_resolution [{ name := "a", url := "u1" }, { name := "b", url := "u2" }] none
      { tenants := [{ name := "a", url := "u1" }, { name := "b", url := "u2" }],
        default_tenant := some "a" }
      rfl (by decide)⟩

/-- C9: constructing the configuration from an empty tenant list always fails,
and so does construction with a configured (truthy) default-tenant name that
matches no record; the failure is the constructor's error value, raised before
any request can be served. -/
theorem config_construction_validation (tenants : List PrometheusTenant)
    (default0 : Option String) :
    (tenants = [] →
      configPostInit tenants default0 =
        Except.error "At least one tenant must be configured") ∧
    (∀ s, default0 = some s → s ≠ "" →
      tenants.find? (fun t => t.name == s) = none →
      ∃ msg, configPostInit tenants default0 = Except.error msg) := by
  constructor
  · intro h0
    subst h0
    rfl
  · intro s hs hne hfind
    cases hres : configPostInit tenants default0 with
    | error msg => exact ⟨msg, rfl⟩
    | ok cfg =>
      exfalso
      obtain ⟨hts, hdf, -, hguard⟩ := configPostInit_ok hres
      subst hs
      have htr : optTruthy (some s) = true := by
        simp [optTruthy, hne]
      rw [if_pos htr] at hdf
      rw [hdf, htr, Bool.true_and, Option.getD_some] at hguard
      have hnone : cfg.get_tenant s = none := by
        simp only [PrometheusConfig.get_tenant, hts]
        exact hfind
      rw [hnone] at hguard
      cases hguard

/-- C9 witness: the empty tenant list and a concrete unresolvable default both
fail construction. -/
theorem config_construction_validation_witness :
    configPostInit [] (some "d") = Except.error "At least one tenant must be configured" ∧
    ∃ msg, configPostInit [{ name := "a", url := "u" }] (some "zzz") = Except.error msg :=
  ⟨(config_construction_validation [] (some "d")).1 rfl,
    (config_construction_validation [{ name := "a", url := "u" }] (some "zzz")).2 "zzz" rfl
      (by decide) (by decide)⟩

/-- C8 counterexample: `configPostInit` performs no name-uniqueness check; a
sequence with two records named "a" constructs successfully, so the registered
names of a successfully constructed registry need not be pairwise unique. -/
theorem duplicate_names_accepted :
    configPostInit [{ name := "a", url := "u1" }, { name := "a", url := "u2" }] none =
      Except.ok { tenants := [{ name := "a", url := "u1" }, { name := "a", url := "u2" }],
                  default_tenant := some "a" } ∧
    ¬ (([{ name := "a", url := "u1" }, { name := "a", url := "u2" }] :
        List PrometheusTenant).map (fun t => t.name)).Nodup :=
  ⟨rfl, by decide⟩

/-- C8 (amended): construction does not enforce name uniqueness — a sequence
containing two records with the same name is accepted as a valid registry, in
which lookups by that name resolve to the first record. -/
theorem duplicate_names_first_wins (t1 t2 : PrometheusTenant) (hname : t2.name = t1.name) :
    ∃ cfg, configPostInit [t1, t2] none = Except.ok cfg ∧
      cfg.tenants = [t1, t2] ∧ cfg.get_tenant t2.name = some t1 := by
  have hfind : ([t1, t2] : List PrometheusTenant).find? (fun t => t.name == t1.name) =
      some t1 := by
    rw [List.find?_cons_of_pos]
    exact beq_self_eq_true t1.name
  refine ⟨{ tenants := [t1, t2], default_tenant := some t1.name }, ?_, rfl, ?_⟩
  · simp [configPostInit, optTruthy, PrometheusConfig.get_tenant, hfind]
  · rw [hname]
    exact hfind

/-- C8 (amended) witness at two concrete same-named records. -/
theorem duplicate_names_first_wins_witness :
    ({ name := "a", url := "u2" } : PrometheusTenant).name =
      ({ name := "a", url := "u1" } : PrometheusTenant).name ∧
    ∃ cfg, configPostInit [{ name := "a", url := "u1" }, { name := "a", url := "u2" }] none =
        Except.ok cfg ∧
      cfg.tenants = [{ name := "a", url := "u1" }, { name := "a", url := "u2" }] ∧
      cfg.get_tenant ({ name := "a", url := "u2" } : PrometheusTenant).name =
        some { name := "a", url := "u1" } :=
  ⟨rfl, duplicate_names_first_wins { name := "a", url := "u1" } { name := "a", url := "u2" } rfl⟩

/-- C4 counterexample: a tenant with a username but no password and no token.
The summary's `has_auth` flag is `true`, yet the claimed condition — both
username and password set, or a token set — is false, so the claimed
biconditional fails on the code. -/
theorem list_tenants_claimed_flag_false :
    (tenantInfo { name := "a", url := "u", username := some "usr" }).has_auth = true ∧
    ((optTruthy ({ name := "a", url := "u", username := some "usr" } :
          PrometheusTenant).username &&
        optTruthy ({ name := "a", url := "u", username := some "usr" } :
          PrometheusTenant).password) ||
      optTruthy ({ name := "a", url := "u", username := some "usr" } :
        PrometheusTenant).token) = false :=
  ⟨rfl, rfl⟩

/-- C4 (amended): the summary's `has_auth` flag is true exactly when the
username is set or the token is set (the password is not consulted), and the
summary never contains credential values: it is determined by the tenant's
name, URL, org id, and the mere presence of username and token. -/
theorem list_tenants_flag_and_redaction (cfg : PrometheusConfig) (t : PrometheusTenant)
    (ht : t ∈ cfg.tenants) :
    tenantInfo t ∈ (list_tenants cfg).tenants ∧
    ((tenantInfo t).has_auth = true ↔
      (optTruthy t.username = true ∨ optTruthy t.token = true)) ∧
    (∀ t' : PrometheusTenant, t'.name = t.name → t'.url = t.url → t'.org_id = t.org_id →
      optTruthy t'.username = optTruthy t.username → optTruthy t'.token = optTruthy t.token →
      tenantInfo t' = tenantInfo t) := by
  refine ⟨List.mem_map.mpr ⟨t, ht, rfl⟩, ?_, ?_⟩
  · simp [tenantInfo]
  · intro t' h1 h2 h3 h4 h5
    simp [tenantInfo, h1, h2, h3, h4, h5]

/-- Fixture: a tenant carrying only a username, in a one-tenant registry. -/
def credTenant : PrometheusTenant := { name := "a", url := "u", username := some "usr" }

/-- Fixture: registry holding `credTenant`. -/
def credConfig : PrometheusConfig :=
  { tenants := [credTenant], default_tenant := some "a" }

/-- C4 (amended) witness: `credTenant` has only a username; its summary flag is
true and the summary is insensitive to the credential values themselves. -/
theorem list_tenants_flag_and_redaction_witness :
    credTenant ∈ credConfig.tenants ∧
    (tenantInfo credTenant ∈ (list_tenants credConfig).tenants ∧
    ((tenantInfo credTenant).has_auth = true ↔
      (optTruthy credTenant.username = true ∨ optTruthy credTenant.token = true)) ∧
    (∀ t' : PrometheusTenant, t'.name = credTenant.name → t'.url = credTenant.url →
      t'.org_id = credTenant.org_id →
      optTruthy t'.username = optTruthy credTenant.username →
      optTruthy t'.token = optTruthy credTenant.token →
      tenantInfo t' = tenantInfo credTenant)) :=
  ⟨by decide, list_tenants_flag_and_redaction credConfig credTenant (by decide)⟩

/-- C1: over a registry with (invariant) unique tenant names, the fan-out's
`successful_tenants + failed_tenants` always equals `total_tenants`, which is
the number of registered tenants, and every registered tenant name appears as
a key in exactly one of the `results` and `errors` maps. -/
theorem fanout_partition_counts (cfg : PrometheusConfig)
    (http : HttpRequest → HttpResponse QueryData) (query : String) (time : Option String)
    (hnd : (cfg.tenants.map (fun t => t.name)).Nodup) :
    (execute_query_all_tenants cfg http query time).successful_tenants +
        (execute_query_all_tenants cfg http query time).failed_tenants =
      (execute_query_all_tenants cfg http query time).total_tenants ∧
    (execute_query_all_tenants cfg http query time).total_tenants = cfg.tenants.length ∧
    ∀ t ∈ cfg.tenants,
      (t.name ∈ (execute_query_all_tenants cfg http query time).results.map Prod.fst ∧
        t.name ∉ (execute_query_all_tenants cfg http query time).errors.map Prod.fst) ∨
      (t.name ∉ (execute_query_all_tenants cfg http query time).results.map Prod.fst ∧
        t.name ∈ (execute_query_all_tenants cfg http query time).errors.map Prod.fst) := by
  have hclosed := fanoutFold_eq (fanoutOutcome cfg http (execQueryParams query time))
    cfg.tenants ([], []) hnd (by simp) (by simp)
  simp only [List.nil_append] at hclosed
  refine ⟨?_, rfl, ?_⟩
  · simp only [execute_query_all_tenants, hclosed]
    exact okErr_length _ cfg.tenants
  · intro t ht
    simp only [execute_query_all_tenants, hclosed]
    cases ho : fanoutOutcome cfg http (execQueryParams query time) t with
    | ok v =>
      left
      constructor
      · exact (mem_okKeys hnd ht).mpr ⟨v, ho⟩
      · intro hmem
        obtain ⟨e, he⟩ := (mem_errKeys hnd ht).mp hmem
        rw [ho] at he
        cases he
    | error e =>
      right
      constructor
      · intro hmem
        obtain ⟨v, hv⟩ := (mem_okKeys hnd ht).mp hmem
        rw [ho] at hv
        cases hv
      · exact (mem_errKeys hnd ht).mpr ⟨e, ho⟩

/-- C2: in the fan-out, a tenant whose own call fails has its stringified
error recorded in `errors`, and every tenant — before or after the failing
one — still gets exactly the entry its own independent outcome dictates, so a
failure on one tenant never prevents the others from being attempted and is
never escalated to an overall failure (the fan-out always returns its result
record). -/
theorem fanout_failure_isolated (cfg : PrometheusConfig)
    (http : HttpRequest → HttpResponse QueryData) (query : String) (time : Option String)
    (hnd : (cfg.tenants.map (fun t => t.name)).Nodup)
    (t : PrometheusTenant) (ht : t ∈ cfg.tenants) (e : ReqError)
    (he : fanoutOutcome cfg http (execQueryParams query time) t = Except.error e) :
    dictGet (execute_query_all_tenants cfg http query time).errors t.name =
      some { error := e.toMessage, success := false } ∧
    ∀ t' ∈ cfg.tenants,
      (∀ v, fanoutOutcome cfg http (execQueryParams query time) t' = Except.ok v →
        dictGet (execute_query_all_tenants cfg http query time).results t'.name = some v) ∧
      (∀ e', fanoutOutcome cfg http (execQueryParams query time) t' = Except.error e' →
        dictGet (execute_query_all_tenants cfg http query time).errors t'.name =
          some { error := e'.toMessage, success := false }) := by
  have hclosed := fanoutFold_eq (fanoutOutcome cfg http (execQueryParams query time))
    cfg.tenants ([], []) hnd (by simp) (by simp)
  simp only [List.nil_append] at hclosed
  constructor
  · simp only [execute_query_all_tenants, hclosed]
    exact dictGet_errEntries hnd ht he
  · intro t' ht'
    constructor
    · intro v hv
      simp only [execute_query_all_tenants, hclosed]
      exact dictGet_okEntries hnd ht' hv
    · intro e' he'
      simp only [execute_query_all_tenants, hclosed]
      exact dictGet_errEntries hnd ht' he'

/-- Fixture: fan-out tenant "a", whose backend answers successfully. -/
def fanTenantA : PrometheusTenant := { name := "a", url := "http://a" }

/-- Fixture: fan-out tenant "b", whose backend answers with an error envelope. -/
def fanTenantB : PrometheusTenant := { name := "b", url := "http://b" }

/-- Fixture: two-tenant registry for the fan-out witnesses. -/
def fanConfig : PrometheusConfig :=
  { tenants := [fanTenantA, fanTenantB], default_tenant := some "a" }

/-- Fixture: success envelope with a vector payload. -/
def fanEnvOK : Envelope QueryData :=
  { status := some "success",
    data := some { resultType := some "vector", result := some "[]" } }

/-- Fixture: an HTTP world where tenant "b" gets a non-success envelope and
every other request succeeds. -/
def fanHttp : HttpRequest → HttpResponse QueryData := fun req =>
  if req.url = "http://b/api/v1/query" then
    HttpResponse.body { status := some "error", error := some "bad query" }
  else
    HttpResponse.body fanEnvOK

/-- C1 witness: with tenant "a" succeeding and tenant "b" failing,
1 + 1 = 2 = total and each name lands in exactly one map. -/
theorem fanout_partition_counts_witness :
    (fanConfig.tenants.map (fun t => t.name)).Nodup ∧
    ((execute_query_all_tenants fanConfig fanHttp "up" none).successful_tenants +
        (execute_query_all_tenants fanConfig fanHttp "up" none).failed_tenants =
      (execute_query_all_tenants fanConfig fanHttp "up" none).total_tenants ∧
    (execute_query_all_tenants fanConfig fanHttp "up" none).total_tenants =
      fanConfig.tenants.length ∧
    ∀ t ∈ fanConfig.tenants,
      (t.name ∈ (execute_query_all_tenants fanConfig fanHttp "up" none).results.map Prod.fst ∧
        t.name ∉ (execute_query_all_tenants fanConfig fanHttp "up" none).errors.map Prod.fst) ∨
      (t.name ∉ (execute_query_all_tenants fanConfig fanHttp "up" none).results.map Prod.fst ∧
        t.name ∈ (execute_query_all_tenants fanConfig fanHttp "up" none).errors.map Prod.fst)) :=
  ⟨by decide, fanout_partition_counts fanConfig fanHttp "up" none (by decide)⟩

/-- C2 witness: tenant "b" fails with the backend error, its stringified
message is recorded, and tenant "a" (and "b") still get their own outcomes. -/
theorem fanout_failure_isolated_witness :
    (fanConfig.tenants.map (fun t => t.name)).Nodup ∧
    fanTenantB ∈ fanConfig.tenants ∧
    fanoutOutcome fanConfig fanHttp (execQueryParams "up" none) fanTenantB =
      Except.error (ReqError.backend "b" "bad query") ∧
    (dictGet (execute_query_all_tenants fanConfig fanHttp "up" none).errors fanTenantB.name =
      some { error := (ReqError.backend "b" "bad query").toMessage, success := false } ∧
    ∀ t' ∈ fanConfig.tenants,
      (∀ v, fanoutOutcome fanConfig fanHttp (execQueryParams "up" none) t' = Except.ok v →
        dictGet (execute_query_all_tenants fanConfig fanHttp "up" none).results t'.name =
          some v) ∧
      (∀ e', fanoutOutcome fanConfig fanHttp (execQueryParams "up" none) t' =
          Except.error e' →
        dictGet (execute_query_all_tenants fanConfig fanHttp "up" none).errors t'.name =
          some { error := e'.toMessage, success := false })) :=
  ⟨by decide, by decide, rfl,
    fanout_failure_isolated fanConfig fanHttp "up" none (by decide) fanTenantB (by decide)
      (ReqError.backend "b" "bad query") rfl⟩

/-- C7: when the backend's JSON envelope has a status other than "success",
the executor — and `execute_query` on top of it — raises the backend error
carrying the backend-reported error string (defaulting to "Unknown error")
and the tenant name, and the stringified message contains both. -/
theorem backend_error_classified (cfg : PrometheusConfig)
    (http : HttpRequest → HttpResponse QueryData) (query : String) (time : Option String)
    (n : String) (tenant : PrometheusTenant) (env : Envelope QueryData) (st : String)
    (hn : n ≠ "")
    (hres : cfg.get_tenant n = some tenant)
    (hhttp : http (buildRequest tenant "query" (execQueryParams query time)) =
      HttpResponse.body env)
    (hst : env.status = some st) (hne : st ≠ "success") :
    make_prometheus_request cfg "query" (execQueryParams query time) http (some n) =
      Except.error (ReqError.backend n (env.error.getD "Unknown error")) ∧
    execute_query cfg http query time (some n) =
      Except.error (ReqError.backend n (env.error.getD "Unknown error")) ∧
    (∃ a b, (ReqError.backend n (env.error.getD "Unknown error")).toMessage =
      a ++ (env.error.getD "Unknown error") ++ b) ∧
    (∃ c d, (ReqError.backend n (env.error.getD "Unknown error")).toMessage =
      c ++ n ++ d) := by
  have hopt : optTruthy (some n) = true := by
    simp [optTruthy, hn]
  have hmain : make_prometheus_request cfg "query" (execQueryParams query time) http
      (some n) = Except.error (ReqError.backend n (env.error.getD "Unknown error")) := by
    simp only [make_prometheus_request, effectiveName, hres, hhttp, hst]
    rw [if_pos (by simp [hne])]
  refine ⟨hmain, ?_, ?_, ?_⟩
  · simp only [execute_query, hopt, if_true, hmain]
  · refine ⟨"Prometheus API error for tenant '" ++ n ++ "': ", "", ?_⟩
    simp [ReqError.toMessage, String.append_assoc]
  · refine ⟨"Prometheus API error for tenant '", "': " ++ (env.error.getD "Unknown error"), ?_⟩
    simp [ReqError.toMessage, String.append_assoc]

/-- Fixture: the concrete error envelope of the C7 witness. -/
def badQueryEnv : Envelope QueryData := { status := some "error", error := some "bad query" }

/-- C7 witness: the envelope with status "error" and error "bad query", sent
by tenant "b" of the fan-out fixture world. -/
theorem backend_error_classified_witness :
    make_prometheus_request fanConfig "query" (execQueryParams "up" none) fanHttp
        (some "b") =
      Except.error (ReqError.backend "b" (badQueryEnv.error.getD "Unknown error")) ∧
    execute_query fanConfig fanHttp "up" none (some "b") =
      Except.error (ReqError.backend "b" (badQueryEnv.error.getD "Unknown error")) ∧
    (∃ a b, (ReqError.backend "b" (badQueryEnv.error.getD "Unknown error")).toMessage =
      a ++ (badQueryEnv.error.getD "Unknown error") ++ b) ∧
    (∃ c d, (ReqError.backend "b" (badQueryEnv.error.getD "Unknown error")).toMessage =
      c ++ "b" ++ d) :=
  backend_error_classified fanConfig fanHttp "up" none "b" fanTenantB badQueryEnv "error"
    (by decide) (by decide) rfl rfl (by decide)

theorem request_default_no_notFound {α : Type} {tenants : List PrometheusTenant}
    {default0 : Option String} {cfg : PrometheusConfig}
    (h : configPostInit tenants default0 = Except.ok cfg)
    (endpoint : String) (params : List (String × String))
    (http : HttpRequest → HttpResponse α) :
    ∀ r a, make_prometheus_request cfg endpoint params http cfg.default_tenant ≠
      Except.error (ReqError.tenantNotFound r a) := by
  obtain ⟨t0, hres, hd⟩ := default_tenant_resolves h
  simp only [resolveTenant, effectiveName, hd] at hres
  intro r a hc
  rw [hd] at hc
  simp only [make_prometheus_request, effectiveName, hres] at hc
  cases hh : http (buildRequest t0 endpoint params) with
  | requestException msg =>
    simp only [hh] at hc
    cases hc
  | invalidJson msg =>
    simp only [hh] at hc
    cases hc
  | body env =>
    simp only [hh] at hc
    cases hstv : env.status with
    | none =>
      simp only [hstv] at hc
      cases hc
    | some st =>
      simp only [hstv] at hc
      by_cases hs : (st != "success") = true
      · rw [if_pos hs] at hc
        cases hc
      · rw [if_neg hs] at hc
        cases hdv : env.data with
        | none =>
          simp only [hdv] at hc
          cases hc
        | some d =>
          simp only [hdv] at hc
          cases hc

/-- C10: for every handler with an optional tenant parameter, passing the
empty string as the tenant name behaves identically to omitting it — the
default tenant is substituted before the request is executed — and, for a
registry built by `configPostInit`, the empty string never yields a
tenant-not-found error at the tool surface. -/
theorem empty_string_tenant_defaults (tenants : List PrometheusTenant)
    (default0 : Option String) (cfg : PrometheusConfig)
    (h : configPostInit tenants default0 = Except.ok cfg)
    (httpQ : HttpRequest → HttpResponse QueryData)
    (httpL : HttpRequest → HttpResponse (List String))
    (httpM : HttpRequest → HttpResponse MetadataData)
    (httpT : HttpRequest → HttpResponse TargetsData)
    (query start stop step metric : String) (time : Option String) :
    execute_query cfg httpQ query time (some "") =
      execute_query cfg httpQ query time none ∧
    execute_range_query cfg httpQ query start stop step (some "") =
      execute_range_query cfg httpQ query start stop step none ∧
    list_metrics cfg httpL (some "") = list_metrics cfg httpL none ∧
    get_metric_metadata cfg httpM metric (some "") =
      get_metric_metadata cfg httpM metric none ∧
    get_targets cfg httpT (some "") = get_targets cfg httpT none ∧
    (∀ r a, execute_query cfg httpQ query time (some "") ≠
      Except.error (ReqError.tenantNotFound r a)) ∧
    (∀ r a, execute_range_query cfg httpQ query start stop step (some "") ≠
      Except.error (ReqError.tenantNotFound r a)) ∧
    (∀ r a, list_metrics cfg httpL (some "") ≠
      Except.error (ReqError.tenantNotFound r a)) ∧
    (∀ r a, get_metric_metadata cfg httpM metric (some "") ≠
      Except.error (ReqError.tenantNotFound r a)) ∧
    (∀ r a, get_targets cfg httpT (some "") ≠
      Except.error (ReqError.tenantNotFound r a)) := by
  refine ⟨rfl, rfl, rfl, rfl, rfl, ?_, ?_, ?_, ?_, ?_⟩
  · intro r a hc
    simp only [execute_query, optTruthy, bne_self_eq_false, Bool.false_eq_true,
      if_false] at hc
    cases hm : make_prometheus_request cfg "query" (execQueryParams query time) httpQ
        cfg.default_tenant with
    | error e =>
      simp only [hm] at hc
      cases hc
      exact request_default_no_notFound h "query" (execQueryParams query time) httpQ r a hm
    | ok data =>
      simp only [hm] at hc
      cases hrt : data.resultType with
      | none =>
        simp only [hrt] at hc
        cases hc
      | some rt =>
        simp only [hrt] at hc
        cases hr2 : data.result with
        | none =>
          simp only [hr2] at hc
          cases hc
        | some rr =>
          simp only [hr2] at hc
          cases hc
  · intro r a hc
    simp only [execute_range_query, optTruthy, bne_self_eq_false, Bool.false_eq_true,
      if_false] at hc
    cases hm : make_prometheus_request cfg "query_range"
        [("query", query), ("start", start), ("end", stop), ("step", step)] httpQ
        cfg.default_tenant with
    | error e =>
      simp only [hm] at hc
      cases hc
      exact request_default_no_notFound h "query_range"
        [("query", query), ("start", start), ("end", stop), ("step", step)] httpQ r a hm
    | ok data =>
      simp only [hm] at hc
      cases hrt : data.resultType with
      | none =>
        simp only [hrt] at hc
        cases hc
      | some rt =>
        simp only [hrt] at hc
        cases hr2 : data.result with
        | none =>
          simp only [hr2] at hc
          cases hc
        | some rr =>
          simp only [hr2] at hc
          cases hc
  · intro r a hc
    simp only [list_metrics, optTruthy, bne_self_eq_false, Bool.false_eq_true,
      if_false] at hc
    cases hm : make_prometheus_request cfg "label/__name__/values" [] httpL
        cfg.default_tenant with
    | error e =>
      simp only [hm] at hc
      cases hc
      exact request_default_no_notFound h "label/__name__/values" [] httpL r a hm
    | ok data =>
      simp only [hm] at hc
      cases hc
  · intro r a hc
    simp only [get_metric_metadata, optTruthy, bne_self_eq_false, Bool.false_eq_true,
      if_false] at hc
    cases hm : make_prometheus_request cfg "metadata" [("metric", metric)] httpM
        cfg.default_tenant with
    | error e =>
      simp only [hm] at hc
      cases hc
      exact request_default_no_notFound h "metadata" [("metric", metric)] httpM r a hm
    | ok data =>
      simp only [hm] at hc
      cases hmd : data.metadata with
      | none =>
        simp only [hmd] at hc
        cases hc
      | some m =>
        simp only [hmd] at hc
        cases hc
  · intro r a hc
    simp only [get_targets, optTruthy, bne_self_eq_false, Bool.false_eq_true,
      if_false] at hc
    cases hm : make_prometheus_request cfg "targets" [] httpT cfg.default_tenant with
    | error e =>
      simp only [hm] at hc
      cases hc
      exact request_default_no_notFound h "targets" [] httpT r a hm
    | ok data =>
      simp only [hm] at hc
      cases hact : data.activeTargets with
      | none =>
        simp only [hact] at hc
        cases hc
      | some act =>
        simp only [hact] at hc
        cases hdr : data.droppedTargets with
        | none =>
          simp only [hdr] at hc
          cases hc
        | some dr =>
          simp only [hdr] at hc
          cases hc

/-- Fixture: metric-listing oracle for the C10 witness. -/
def fixHttpL : HttpRequest → HttpResponse (List String) := fun _ =>
  HttpResponse.requestException "down"

/-- Fixture: metadata oracle for the C10 witness. -/
def fixHttpM : HttpRequest → HttpResponse MetadataData := fun _ =>
  HttpResponse.requestException "down"

/-- Fixture: targets oracle for the C10 witness. -/
def fixHttpT : HttpRequest → HttpResponse TargetsData := fun _ =>
  HttpResponse.requestException "down"

/-- C10 witness at the two-tenant fixture registry. -/
theorem empty_string_tenant_defaults_witness :
    configPostInit [fanTenantA, fanTenantB] none = Except.ok fanConfig ∧
    (execute_query fanConfig fanHttp "up" none (some "") =
      execute_query fanConfig fanHttp "up" none none ∧
    execute_range_query fanConfig fanHttp "up" "1" "2" "15s" (some "") =
      execute_range_query fanConfig fanHttp "up" "1" "2" "15s" none ∧
    list_metrics fanConfig fixHttpL (some "") = list_metrics fanConfig fixHttpL none ∧
    get_metric_metadata fanConfig fixHttpM "m" (some "") =
      get_metric_metadata fanConfig fixHttpM "m" none ∧
    get_targets fanConfig fixHttpT (some "") = get_targets fanConfig fixHttpT none ∧
    (∀ r a, execute_query fanConfig fanHttp "up" none (some "") ≠
      Except.error (ReqError.tenantNotFound r a)) ∧
    (∀ r a, execute_range_query fanConfig fanHttp "up" "1" "2" "15s" (some "") ≠
      Except.error (ReqError.tenantNotFound r a)) ∧
    (∀ r a, list_metrics fanConfig fixHttpL (some "") ≠
      Except.error (ReqError.tenantNotFound r a)) ∧
    (∀ r a, get_metric_metadata fanConfig fixHttpM "m" (some "") ≠
      Except.error (ReqError.tenantNotFound r a)) ∧
    (∀ r a, get_targets fanConfig fixHttpT (some "") ≠
      Except.error (ReqError.tenantNotFound r a))) :=
  ⟨rfl, empty_string_tenant_defaults [fanTenantA, fanTenantB] none fanConfig rfl
    fanHttp fixHttpL fixHttpM fixHttpT "up" "1" "2" "15s" "m" none⟩
